import Mathlib

/-!
Shallow embedding of the KisanTech/kisan-ai voice conversational turn
pipeline (frontend), translated from the TypeScript sources:

* `src/config/languages.ts` — language selections and code resolution
* `src/services/voiceChatService.ts` — `VoiceChatService.speechToText`
  request construction and response normalization
* `src/screens/VoiceChatScreen.tsx` — the turn orchestrator handlers
  (`handleTextSend`, `handleAudioRecorded`)
* `src/components/VoiceRecorder.tsx` — audio capture controller
* `src/components/VoicePlayer.tsx` — audio playback controller
* `src/services/sessionService.ts` (in `types/navigation.ts` in this
  snapshot) — `SessionService`
* `src/screens/crop-health-diagnosis/CropHealthScreen.tsx` —
  `parseAgentResponse`

JavaScript conventions are modelled explicitly: a missing object field is
`Option.none`; JS truthiness of `x || d` on strings treats `""` as falsy,
on numbers treats `0` as falsy, on booleans treats `false` as falsy;
a thrown exception is `Except.error`.
-/

namespace KisanAI

/-- JS `a || b` for string-valued optional fields: `undefined` and the empty
string are falsy, so both fall through to the default. -/
def jsOrStr (o : Option String) (d : String) : String :=
  match o with
  | none => d
  | some s => if s = "" then d else s

/-- JS `a || b` for number-valued optional fields: `undefined` and `0` are
falsy. Numbers are modelled as `Int`. -/
def jsOrInt (o : Option Int) (d : Int) : Int :=
  match o with
  | none => d
  | some n => if n = 0 then d else n

/-- JS `a || b` for boolean-valued optional fields. -/
def jsOrBool (o : Option Bool) (d : Bool) : Bool :=
  match o with
  | none => d
  | some b => if b then b else d

/-- JS `a || null` for a string-or-null field: `undefined` and `""` map to
`null` (`none`). -/
def jsOrNull (o : Option String) : Option String :=
  match o with
  | none => none
  | some s => if s = "" then none else some s

/-- JS falsiness of a possibly-missing string (`!x`). -/
def jsFalsy (o : Option String) : Bool :=
  match o with
  | none => true
  | some s => s = ""

/-- JS whitespace (the common subset used by this code's strings). -/
def isWsChar (c : Char) : Bool :=
  c = ' ' ∨ c = '\n' ∨ c = '\t' ∨ c = '\r'

/-- `String.prototype.trim` on character lists: drop whitespace from both
ends. -/
def trimJs (cs : List Char) : List Char :=
  ((cs.dropWhile isWsChar).reverse.dropWhile isWsChar).reverse

/-- `String.prototype.trim` on strings. -/
def jsTrim (s : String) : String :=
  String.mk (trimJs s.data)

/-! ## Language configuration (`src/config/languages.ts`) -/

/-- A farmer-facing language selection mapped to a speech-recognition code
and a text/chat API code. -/
structure Language where
  id : String
  name : String
  nativeName : String
  speechRecognitionCode : String
  textApiCode : String
  deriving Repr, DecidableEq

/-- The `SUPPORTED_LANGUAGES` table. -/
def SUPPORTED_LANGUAGES : List Language :=
  [ { id := "en", name := "English", nativeName := "English",
      speechRecognitionCode := "en-IN", textApiCode := "en" },
    { id := "kn", name := "Kannada", nativeName := "ಕನ್ನಡ",
      speechRecognitionCode := "kn-IN", textApiCode := "kn" },
    { id := "hi", name := "Hindi", nativeName := "हिंदी",
      speechRecognitionCode := "hi-IN", textApiCode := "hi" },
    { id := "od", name := "Odia", nativeName := "ଓଡ଼ିଆ",
      speechRecognitionCode := "hi-IN", textApiCode := "od" } ]

/-- `getSpeechRecognitionCode`: find the language by id; the JS
`language?.speechRecognitionCode || 'en-US'` falls back for a missing
language or an empty code. -/
def getSpeechRecognitionCode (languageId : String) : String :=
  jsOrStr ((SUPPORTED_LANGUAGES.find? (fun l => l.id = languageId)).map
    (·.speechRecognitionCode)) "en-US"

/-- `getTextApiCode`: find the language by id; falls back to `'en'`. -/
def getTextApiCode (languageId : String) : String :=
  jsOrStr ((SUPPORTED_LANGUAGES.find? (fun l => l.id = languageId)).map
    (·.textApiCode)) "en"

/-! ## `VoiceChatService.speechToText` (`src/services/voiceChatService.ts`) -/

/-- The JSON body `speechToText` posts to `/invoke/voice`. -/
structure VoiceInvokeRequest where
  audio_data : String
  audio_encoding : String
  language_code : String
  user_id : String
  session_id : String
  deriving Repr, DecidableEq

/-- The request object built by `speechToText(base64Audio, languageCode)`:
the source hardcodes `user_id: '123', session_id: '123'`. -/
def speechToTextRequest (base64Audio languageCode : String) : VoiceInvokeRequest :=
  { audio_data := base64Audio
    audio_encoding := "MP3"
    language_code := languageCode
    user_id := "123"
    session_id := "123" }

/-- A raw backend response body: every field may be absent (duck-typed
JSON). -/
structure ApiVoiceResponse where
  success : Option Bool := none
  translated_text : Option String := none
  original_transcript : Option String := none
  detected_language : Option String := none
  transcription_confidence : Option Int := none
  agent_response : Option String := none
  agent_response_translated : Option String := none
  response_audio_data : Option String := none
  response_audio_encoding : Option String := none
  response_audio_size_bytes : Option Int := none
  user_id : Option String := none
  session_id : Option String := none
  error : Option String := none
  transcription : Option String := none
  translation : Option String := none
  confidence : Option Int := none
  language : Option String := none
  deriving Repr, DecidableEq

/-- The normalized `SpeechToTextResponse` returned by `speechToText`. -/
structure SpeechToTextResponse where
  success : Bool
  translated_text : String
  original_transcript : String
  detected_language : String
  transcription_confidence : Int
  agent_response : String
  agent_response_translated : String
  response_audio_data : String
  response_audio_encoding : String
  response_audio_size_bytes : Int
  user_id : String
  session_id : String
  error : Option String
  transcription : Option String
  translation : Option String
  confidence : Option Int
  language : Option String
  deriving Repr, DecidableEq

/-- The normalization performed by `speechToText` on the API response
(`voiceChatService.ts` lines 113–132), field by field with JS `||`
semantics. -/
def normalizeSpeechToTextResponse (apiResponse : ApiVoiceResponse)
    (languageCode : String) : SpeechToTextResponse :=
  { success := jsOrBool apiResponse.success false
    translated_text := jsOrStr apiResponse.translated_text ""
    original_transcript := jsOrStr apiResponse.original_transcript ""
    detected_language := jsOrStr apiResponse.detected_language languageCode
    transcription_confidence := jsOrInt apiResponse.transcription_confidence 0
    agent_response := jsOrStr apiResponse.agent_response ""
    agent_response_translated := jsOrStr apiResponse.agent_response_translated ""
    response_audio_data := jsOrStr apiResponse.response_audio_data ""
    response_audio_encoding := jsOrStr apiResponse.response_audio_encoding "MP3"
    response_audio_size_bytes := jsOrInt apiResponse.response_audio_size_bytes 0
    user_id := jsOrStr apiResponse.user_id "123"
    session_id := jsOrStr apiResponse.session_id "123"
    error := jsOrNull apiResponse.error
    transcription := some (jsOrStr apiResponse.original_transcript
      (jsOrStr apiResponse.transcription ""))
    translation := some (jsOrStr apiResponse.translated_text
      (jsOrStr apiResponse.translation ""))
    confidence := some (jsOrInt apiResponse.transcription_confidence
      (jsOrInt apiResponse.confidence 0))
    language := some (jsOrStr apiResponse.detected_language
      (jsOrStr apiResponse.language languageCode)) }

/-! ## Conversational turn orchestrator (`src/screens/VoiceChatScreen.tsx`)

The orchestrator is spread over the screen's handlers. The asynchronous
`await` on the remote call splits each handler into a synchronous start
(guard, state flips, user-message append, dispatch) and a completion that
consumes the call's outcome. A thrown error or rejected promise is the
`Except.error` case of the outcome. -/

/-- Role of a chat message (`type: 'user' | 'assistant'`). -/
inductive MsgRole where
  | user
  | assistant
  deriving Repr, DecidableEq

/-- A `ChatMessage` as built by `addMessage`. The `Date.now()` part of the
id is not tracked; the monotone `messageIdCounter` part is. -/
structure ChatMessage where
  id : Nat
  role : MsgRole
  content : String
  isAudio : Bool
  audioData : Option String
  deriving Repr, DecidableEq

/-- A call handed to `voiceChatService`: the arguments of
`sendTextInvoke(message, languageCode)` or the request body built by
`speechToText`. -/
inductive DispatchedCall where
  | textInvoke (message languageCode : String)
  | voiceInvoke (request : VoiceInvokeRequest)
  deriving Repr, DecidableEq

/-- The screen state owned by `VoiceChatScreen`, plus the trace of remote
calls it has dispatched. -/
structure ScreenState where
  messages : List ChatMessage
  textInput : String
  isRecording : Bool
  isProcessing : Bool
  isSending : Bool
  messageIdCounter : Nat
  currentLanguage : String
  dispatched : List DispatchedCall
  deriving Repr, DecidableEq

/-- `addMessage(type, content, audioData?)`: bumps the counter and appends
one immutable message; `isAudio: !!audioData` is JS truthiness. -/
def addMessage (s : ScreenState) (role : MsgRole) (content : String)
    (audioData : Option String) : ScreenState :=
  { s with
    messageIdCounter := s.messageIdCounter + 1
    messages := s.messages ++
      [{ id := s.messageIdCounter + 1
         role := role
         content := content
         isAudio := !(jsFalsy audioData)
         audioData := audioData }] }

/-- Modelled from the spec: the response of the text-turn agent call.
`VoiceChatService.sendTextInvoke` is absent from the snapshot (only its
call site in `VoiceChatScreen.handleTextSend` survives); §6 gives the text
turn response `{ success, agentResponse, agentResponseTranslated,
error? }`, named here as the call site reads them. -/
structure TextInvokeResponse where
  success : Bool
  agent_response : String
  agent_response_translated : String
  error : Option String
  deriving Repr, DecidableEq

/-- JS `a || b` on two plain strings (`""` is falsy). -/
def jsOrStrStr (a b : String) : String :=
  if a = "" then b else a

/-- The generic localized failure notice `t('voiceChat.errorMessage')`,
represented by its translation key. -/
def voiceChatErrorNotice : String := "voiceChat.errorMessage"

/-- Synchronous prefix of `handleTextSend`: the guard
`if (!textInput.trim() || isSending) return;`, then clear the input, set
`isSending`, append the user message and dispatch
`sendTextInvoke(userMessage, getSpeechRecognitionCode(currentLanguage))`. -/
def handleTextSendStart (s : ScreenState) : ScreenState :=
  if jsTrim s.textInput = "" ∨ s.isSending then s
  else
    let userMessage := jsTrim s.textInput
    let s1 := { s with textInput := "", isSending := true }
    let s2 := addMessage s1 .user userMessage none
    { s2 with dispatched := s2.dispatched ++
        [.textInvoke userMessage (getSpeechRecognitionCode s.currentLanguage)] }

/-- Completion of `handleTextSend` on the outcome of `sendTextInvoke`:
on `success` append the assistant reply
(`agent_response_translated || agent_response`); otherwise the handler
throws and the `catch` appends the generic failure notice; `finally`
clears `isSending`. -/
def handleTextSendComplete (s : ScreenState)
    (outcome : Except Unit TextInvokeResponse) : ScreenState :=
  match outcome with
  | .error _ =>
      { addMessage s .assistant voiceChatErrorNotice none with isSending := false }
  | .ok r =>
      if r.success then
        { addMessage s .assistant
            (jsOrStrStr r.agent_response_translated r.agent_response) none with
          isSending := false }
      else
        { addMessage s .assistant voiceChatErrorNotice none with isSending := false }

/-- Synchronous prefix of `handleAudioRecorded`: set `isProcessing` and
dispatch `speechToText(base64Audio, getSpeechRecognitionCode(currentLanguage))`.
There is no guard: the handler runs whatever else is in flight. -/
def handleAudioRecordedStart (s : ScreenState) (base64Audio : String) : ScreenState :=
  { s with
    isProcessing := true
    dispatched := s.dispatched ++
      [.voiceInvoke (speechToTextRequest base64Audio
        (getSpeechRecognitionCode s.currentLanguage))] }

/-- Completion of `handleAudioRecorded`: on `success` append the
transcribed user message then the assistant reply (with its audio
payload); on failure (thrown error or `success:false`) the `catch` only
raises `Alert.alert` — no message is appended; `finally` clears
`isProcessing`. -/
def handleAudioRecordedComplete (s : ScreenState) (base64Audio : String)
    (outcome : Except Unit SpeechToTextResponse) : ScreenState :=
  match outcome with
  | .error _ => { s with isProcessing := false }
  | .ok r =>
      if r.success then
        let s1 := addMessage s .user r.original_transcript (some base64Audio)
        let s2 := addMessage s1 .assistant r.agent_response_translated
          (some r.response_audio_data)
        { s2 with isProcessing := false }
      else
        { s with isProcessing := false }

/-- A whole text turn: start then completion (meaningful when the start
guard passes, i.e. the call was actually dispatched). -/
def textTurn (s : ScreenState) (outcome : Except Unit TextInvokeResponse) :
    ScreenState :=
  handleTextSendComplete (handleTextSendStart s) outcome

/-- A whole voice turn: start then completion. -/
def voiceTurn (s : ScreenState) (base64Audio : String)
    (outcome : Except Unit SpeechToTextResponse) : ScreenState :=
  handleAudioRecordedComplete (handleAudioRecordedStart s base64Audio)
    base64Audio outcome

/-- A text-turn outcome counts as failed when the promise rejects or the
response carries `success:false` (the handler then throws into its own
`catch`). -/
def textOutcomeFailed (outcome : Except Unit TextInvokeResponse) : Bool :=
  match outcome with
  | .error _ => true
  | .ok r => !r.success

/-- A voice-turn outcome counts as failed when the promise rejects or the
response carries `success:false`. -/
def voiceOutcomeFailed (outcome : Except Unit SpeechToTextResponse) : Bool :=
  match outcome with
  | .error _ => true
  | .ok r => !r.success

/-- The assistant-role messages in `ms` whose content is the generic
failure notice. -/
def failureNotices (ms : List ChatMessage) : List ChatMessage :=
  ms.filter (fun m => m.role = .assistant ∧ m.content = voiceChatErrorNotice)

/-! ## Audio capture controller (`src/components/VoiceRecorder.tsx`)

The recorder's observable state: whether the device is recording, the
pending safety-timeout delay (`timeoutRef`), the recorder's file URI
(`audioRecorder.uri`) and the temp recording files on disk. File-system
read success is an environment flag on each stop (whether
`FileSystem.readAsStringAsync` resolves); device start success likewise
on each start. -/

/-- Events emitted to the host through the recorder's callbacks. -/
inductive RecEmit where
  | payload (base64Audio : String)
  | recError (message : String)
  deriving Repr, DecidableEq

/-- The base64 content of a recorded file, as an opaque function of its
URI (`FileSystem.readAsStringAsync(uri, Base64)`). -/
def recBase64Of (uri : String) : String := "base64:" ++ uri

/-- State of one `VoiceRecorder` instance together with the temp files it
has on disk. -/
structure RecState where
  isRecording : Bool
  timerDelayMs : Option Nat
  uri : Option String
  disk : List String
  fileCounter : Nat
  deriving Repr, DecidableEq

/-- A freshly mounted recorder. -/
def initRec : RecState :=
  { isRecording := false, timerDelayMs := none, uri := none, disk := [],
    fileCounter := 0 }

/-- `startRecording`: on device success the capture file appears on disk,
recording begins, and the 60 000 ms safety timeout is scheduled; on a
thrown start error only `onError` fires. -/
def startRecording (s : RecState) (startOk : Bool) : RecState × List RecEmit :=
  if startOk then
    let f := "recording-" ++ toString s.fileCounter
    ({ s with
        isRecording := true
        timerDelayMs := some 60000
        uri := some f
        disk := s.disk ++ [f]
        fileCounter := s.fileCounter + 1 }, [])
  else (s, [.recError "Failed to start recording"])

/-- `stopRecording`: clears the safety timeout, stops the device, then —
if `audioRecorder.uri` exists — base64-encodes and emits the payload and
deletes the temp file. A failed encode throws into the outer `catch`
(`onError('Failed to stop recording')`) before the delete line runs, so
the file stays on disk. A missing URI emits
`onError('Recording URI not found')`. -/
def stopRecording (s : RecState) (readOk : Bool) : RecState × List RecEmit :=
  let s1 := { s with timerDelayMs := none, isRecording := false }
  match s.uri with
  | some u =>
      if readOk then
        ({ s1 with disk := s1.disk.erase u }, [.payload (recBase64Of u)])
      else (s1, [.recError "Failed to stop recording"])
  | none => (s1, [.recError "Recording URI not found"])

/-- External events that reach a mounted recorder. `press` is the single
toggle button (`toggleRecording`); its flag is the device/file-system
success of the start or stop it triggers. `timerFire` is the safety
timeout firing (only possible while scheduled). `otherUi` is any event
that does not touch the recorder. -/
inductive RecEvent where
  | press (ok : Bool)
  | timerFire (ok : Bool)
  | unmount
  | otherUi
  deriving Repr, DecidableEq

/-- One step of the recorder under an event. The unmount cleanup effect
clears the timeout and calls `audioRecorder.stop()` directly when
recording; it deletes nothing and emits nothing. -/
def recStep (s : RecState) (e : RecEvent) : RecState × List RecEmit :=
  match e with
  | .press ok => if s.isRecording then stopRecording s ok else startRecording s ok
  | .timerFire ok =>
      if s.timerDelayMs.isSome then stopRecording s ok else (s, [])
  | .unmount => ({ s with timerDelayMs := none, isRecording := false }, [])
  | .otherUi => (s, [])

/-- C5 as stated: every stop — successful, URI-less, or with a failed
encode — removes the stop's temp file from disk. -/
def recEveryStopDeletes : Prop :=
  ∀ (s : RecState) (ok : Bool) (u : String),
    s.uri = some u → u ∉ (stopRecording s ok).1.disk

/-- C6's exclusivity part as stated: only the explicit stop press and the
safety timer can end an in-progress recording. -/
def recOnlyPressOrTimerStops : Prop :=
  ∀ (s : RecState) (e : RecEvent), s.isRecording = true →
    (recStep s e).1.isRecording = false →
    (∃ ok, e = .press ok) ∨ (∃ ok, e = .timerFire ok)

/-! ## Audio playback controller (`src/components/VoicePlayer.tsx`)

The player's temp files are named by `Date.now()`; freshness is modelled
by a monotone counter. React effect semantics order the cleanup of the
previous `[base64Audio]` effect (which deletes the previous temp file and
clears `audioUriRef`) before the next effect body (which decodes the new
payload); on unmount all effect cleanups run. -/

/-- State of one `VoicePlayer` instance together with the temp playback
files it has on disk. -/
structure PlayerState where
  audioUriRef : Option Nat
  disk : List Nat
  fileCounter : Nat
  isPlaying : Bool
  deriving Repr, DecidableEq

/-- A freshly mounted player. -/
def initPlayer : PlayerState :=
  { audioUriRef := none, disk := [], fileCounter := 0, isPlaying := false }

/-- `cleanupAudioFile`: delete the referenced temp file (idempotent) and
clear `audioUriRef`. -/
def cleanupAudioFile (s : PlayerState) : PlayerState :=
  { s with
    disk := match s.audioUriRef with
            | some f => s.disk.erase f
            | none => s.disk
    audioUriRef := none }

/-- Events on a mounted player: a new base64 payload arriving (the
`[base64Audio]` effect re-runs; the flag is whether
`FileSystem.writeAsStringAsync` succeeds), the play/pause toggle, and
teardown of the hosting component. -/
inductive PlayerEvent where
  | loadPayload (writeOk : Bool)
  | pressPlayPause
  | unmount
  deriving Repr, DecidableEq

/-- One step of the player. A new payload first runs the previous
effect's cleanup, then `convertBase64ToAudio` writes a fresh temp file
and sets `audioUriRef` (only on write success). Unmount runs the effect
cleanups — also mid-playback. -/
def playerStep (s : PlayerState) (e : PlayerEvent) : PlayerState :=
  match e with
  | .loadPayload writeOk =>
      let s1 := cleanupAudioFile s
      if writeOk then
        { s1 with
          audioUriRef := some s1.fileCounter
          disk := s1.disk ++ [s1.fileCounter]
          fileCounter := s1.fileCounter + 1 }
      else { s1 with fileCounter := s1.fileCounter + 1 }
  | .pressPlayPause =>
      if s.audioUriRef.isSome then { s with isPlaying := !s.isPlaying } else s
  | .unmount => cleanupAudioFile { s with isPlaying := false }

/-- The player state after a sequence of events from a fresh mount. -/
def runPlayer (evs : List PlayerEvent) : PlayerState :=
  evs.foldl playerStep initPlayer

/-- The player's resource invariant: the temp files on disk are exactly
the one referenced by `audioUriRef`, if any, and any referenced file is
older than the freshness counter (temp names are unique). -/
def playerInv (s : PlayerState) : Prop :=
  (s.disk = match s.audioUriRef with
            | some f => [f]
            | none => [])
  ∧ (∀ f, s.audioUriRef = some f → f < s.fileCounter)

/-! ## Session identity manager (`SessionService`)

`uuidv4()` is modelled as an external stream `gen : Nat → String` read at
a running index, so each call yields the stream's next value. Each
`AsyncStorage` call of one `getUserId` invocation has its own outcome in
a `StorageEnv` (`Except.error` = the promise rejects). -/

/-- The manager's in-memory fields (`this.sessionId`, `this.userId`). -/
structure SessionMem where
  userId : Option String
  sessionId : Option String
  deriving Repr, DecidableEq

/-- Outcomes of the `AsyncStorage` calls reachable from one `getUserId`
invocation, in program order: the unguarded direct `getItem` in
`getUserId`, then (inside `initializeSession`'s `try`) the session
`setItem`, the user `getItem`, and the user `setItem`. -/
structure StorageEnv where
  getUserDirect : Except Unit (Option String)
  initSetSession : Except Unit Unit
  initGetUser : Except Unit (Option String)
  initSetUser : Except Unit Unit
  deriving Repr

/-- `initializeSession`: always generates a fresh session id; reads or
creates the persistent user id; any storage failure inside the `try`
falls into the `catch`, which replaces both ids with fresh in-memory
UUIDs. Returns the new memory and the next unread index of the UUID
stream. Never fails. -/
def initializeSession (env : StorageEnv) (gen : Nat → String) (c : Nat) :
    SessionMem × Nat :=
  let sessionId := gen c
  match env.initSetSession with
  | .error _ =>
      ({ sessionId := some (gen (c + 1)), userId := some (gen (c + 2)) }, c + 3)
  | .ok _ =>
      match env.initGetUser with
      | .error _ =>
          ({ sessionId := some (gen (c + 1)), userId := some (gen (c + 2)) }, c + 3)
      | .ok v =>
          if jsFalsy v then
            let u := gen (c + 1)
            match env.initSetUser with
            | .error _ =>
                ({ sessionId := some (gen (c + 2)), userId := some (gen (c + 3)) },
                  c + 4)
            | .ok _ => ({ sessionId := some sessionId, userId := some u }, c + 2)
          else ({ sessionId := some sessionId, userId := v }, c + 1)

/-- `getUserId`: returns the cached id if truthy; otherwise performs an
unguarded `AsyncStorage.getItem` — whose rejection propagates — and, if
that yields nothing, falls back to `initializeSession`. On success
returns the id with the updated memory and stream index. -/
def getUserId (mem : SessionMem) (env : StorageEnv) (gen : Nat → String)
    (c : Nat) : Except Unit (String × SessionMem × Nat) :=
  if jsFalsy mem.userId then
    match env.getUserDirect with
    | .error e => .error e
    | .ok v =>
        if jsFalsy v then
          let r := initializeSession env gen c
          .ok (r.1.userId.getD "", r.1, r.2)
        else .ok (v.getD "", { mem with userId := v }, c)
  else .ok (mem.userId.getD "", mem, c)

/-- A storage environment in which every call succeeds and no user id is
persisted yet. -/
def freshStorageEnv : StorageEnv :=
  { getUserDirect := .ok none
    initSetSession := .ok ()
    initGetUser := .ok none
    initSetUser := .ok () }

/-- A concrete UUID stream for counterexamples. -/
def exGen (n : Nat) : String := "uuid-" ++ toString n

/-! ## Diagnosis response parsing
(`CropHealthScreen.parseAgentResponse`, lines 122–138)

Strings are modelled as `List Char`. `JSON.parse` is an external engine:
the parser is any `List Char → Option α`, with a thrown parse error as
`none` (the `catch` turns it into the `null` result). The fence
stripping itself is translated exactly: trim, and if the text starts with
the triple-backtick-json marker drop that marker plus following
whitespace and a trailing whitespace-plus-triple-backtick fence. -/

/-- The backtick character (code point 96). -/
def tickChar : Char := Char.ofNat 96

/-- The opening marker of a fenced block: three backticks and then
`json`. -/
def fenceJsonTag : List Char :=
  tickChar :: tickChar :: tickChar :: 'j' :: 's' :: 'o' :: 'n' :: []

/-- Three backticks. -/
def fenceTicks : List Char := tickChar :: tickChar :: tickChar :: []

/-- The second replace of the stripping branch: if the text ends in three
backticks, remove them and the whitespace before them. -/
def dropFenceSuffix (cs : List Char) : List Char :=
  let r := cs.reverse
  if fenceTicks.isPrefixOf r then ((r.drop 3).dropWhile isWsChar).reverse else cs

/-- The fence stripping of `parseAgentResponse`: trim; when the trimmed
text starts with the triple-backtick-json marker, drop the marker with
its following whitespace, then drop a trailing
whitespace-plus-triple-backtick fence. -/
def stripFence (raw : List Char) : List Char :=
  let t := trimJs raw
  if fenceJsonTag.isPrefixOf t then
    dropFenceSuffix ((t.drop 7).dropWhile isWsChar)
  else t

/-- `parseAgentResponse(rawResponse)`: strip the fence and hand the text
to `JSON.parse`; a parse error is caught and becomes `null` (`none`). -/
def parseAgentResponse {α : Type} (jsonParse : List Char → Option α)
    (rawResponse : List Char) : Option α :=
  jsonParse (stripFence rawResponse)

/-- Wrap a body in a markdown triple-backtick json code fence. -/
def fenceWrap (body : List Char) : List Char :=
  fenceJsonTag ++ '\n' :: (body ++ '\n' :: fenceTicks)

/-! ## Concrete example states and the claims under test -/

/-- An idle chat screen with the text `"hi"` typed and language English. -/
def exReadyState : ScreenState :=
  { messages := [], textInput := "hi", isRecording := false,
    isProcessing := false, isSending := false, messageIdCounter := 0,
    currentLanguage := "en", dispatched := [] }

/-- The same screen while a voice turn is outstanding (`isProcessing`). -/
def exBusyState : ScreenState :=
  { exReadyState with isProcessing := true }

/-- The same screen while a text turn is outstanding (`isSending`). -/
def exSendingState : ScreenState :=
  { exReadyState with isSending := true }

/-- The serialization property as claimed: while any turn is outstanding
(`isSending` or `isProcessing`), a submit attempt of either kind
dispatches no additional remote call. -/
def secondSubmitIsNoop : Prop :=
  ∀ s : ScreenState, s.isSending = true ∨ s.isProcessing = true →
    (handleTextSendStart s).dispatched = s.dispatched ∧
    ∀ b, (handleAudioRecordedStart s b).dispatched = s.dispatched

/-- The failure-append property as claimed: every failed turn, text or
voice, appends exactly one assistant message carrying the generic
failure notice. -/
def everyFailedTurnAppendsOneNotice : Prop :=
  (∀ (s : ScreenState) (outcome : Except Unit TextInvokeResponse),
      textOutcomeFailed outcome = true →
      (failureNotices (textTurn s outcome).messages).length =
        (failureNotices s.messages).length + 1)
  ∧ ∀ (s : ScreenState) (b : String) (outcome : Except Unit SpeechToTextResponse),
      voiceOutcomeFailed outcome = true →
      (failureNotices (voiceTurn s b outcome).messages).length =
        (failureNotices s.messages).length + 1

/-! ## Supporting lemmas -/

/-- A text equal to its own trim sheds no leading whitespace. -/
lemma dropWhile_eq_self_of_trim {cs : List Char} (h : trimJs cs = cs) :
    cs.dropWhile isWsChar = cs := by
  have hd : cs.dropWhile isWsChar <:+ cs := List.dropWhile_suffix _
  have he : (cs.dropWhile isWsChar).reverse.dropWhile isWsChar <:+
      (cs.dropWhile isWsChar).reverse := List.dropWhile_suffix _
  have hlen : cs.length ≤ (cs.dropWhile isWsChar).length := by
    have h1 := he.length_le
    simp only [List.length_reverse] at h1
    calc cs.length = (trimJs cs).length := by rw [h]
    _ = ((cs.dropWhile isWsChar).reverse.dropWhile isWsChar).length := by
          simp [trimJs]
    _ ≤ (cs.dropWhile isWsChar).length := h1
  exact hd.eq_of_length (le_antisymm hd.length_le hlen)

/-- A text equal to its own trim sheds no trailing whitespace. -/
lemma rev_dropWhile_eq_self_of_trim {cs : List Char} (h : trimJs cs = cs) :
    cs.reverse.dropWhile isWsChar = cs.reverse := by
  have h1 := dropWhile_eq_self_of_trim h
  have h2 : trimJs cs = (cs.reverse.dropWhile isWsChar).reverse := by
    simp [trimJs, h1]
  have h3 := h2.symm.trans h
  calc cs.reverse.dropWhile isWsChar
      = ((cs.reverse.dropWhile isWsChar).reverse).reverse := by simp
    _ = cs.reverse := by rw [h3]

/-- A fenced payload starts and ends in a backtick, so trimming keeps it
intact. -/
lemma trimJs_fenceWrap (b : List Char) : trimJs (fenceWrap b) = fenceWrap b := by
  simp [trimJs, fenceWrap, fenceJsonTag, fenceTicks, List.dropWhile, isWsChar,
    List.reverse_append, tickChar]

/-- Removing the closing fence recovers a trimmed body exactly. -/
lemma dropFenceSuffix_append (b : List Char) (hb : trimJs b = b) :
    dropFenceSuffix (b ++ '\n' :: fenceTicks) = b := by
  have hrev : (b ++ '\n' :: fenceTicks).reverse =
      tickChar :: tickChar :: tickChar :: '\n' :: b.reverse := by
    simp [fenceTicks, List.reverse_append]
  have hdw : b.reverse.dropWhile isWsChar = b.reverse :=
    rev_dropWhile_eq_self_of_trim hb
  simp [dropFenceSuffix, hrev, List.isPrefixOf, fenceTicks, List.dropWhile,
    isWsChar, tickChar, hdw]

/-- Fence stripping undoes fence wrapping on a trimmed body. -/
lemma stripFence_fenceWrap (b : List Char) (hb : trimJs b = b) :
    stripFence (fenceWrap b) = b := by
  have h1 : trimJs (fenceWrap b) = fenceWrap b := trimJs_fenceWrap b
  have h2 : fenceJsonTag.isPrefixOf (fenceWrap b) = true := by
    simp [fenceWrap, fenceJsonTag, List.isPrefixOf]
  have h3 : (fenceWrap b).drop 7 = '\n' :: (b ++ '\n' :: fenceTicks) := by
    simp [fenceWrap, fenceJsonTag]
  rw [stripFence, h1, if_pos (by simp [h2]), h3]
  match b, hb with
  | [], _ => simp [List.dropWhile, isWsChar, fenceTicks, dropFenceSuffix,
      List.isPrefixOf, tickChar]
  | c :: bs, hb =>
    have hc : isWsChar c = false := by
      have hself := dropWhile_eq_self_of_trim hb
      cases hcw : isWsChar c with
      | false => rfl
      | true =>
        exfalso
        rw [List.dropWhile_cons, hcw, if_pos rfl] at hself
        have hlen := (List.dropWhile_suffix (l := bs) (p := isWsChar)).length_le
        rw [hself] at hlen
        simp at hlen
    rw [show ('\n' :: ((c :: bs) ++ '\n' :: fenceTicks)).dropWhile isWsChar
        = (c :: bs) ++ '\n' :: fenceTicks by
      rw [List.dropWhile_cons]
      simp only [show isWsChar '\n' = true by decide, if_true]
      rw [List.cons_append, List.dropWhile_cons, hc]
      simp]
    exact dropFenceSuffix_append (c :: bs) hb

/-- Fence stripping leaves a trimmed, unfenced body unchanged. -/
lemma stripFence_clean (b : List Char) (hb : trimJs b = b)
    (h2 : fenceJsonTag.isPrefixOf b = false) : stripFence b = b := by
  rw [stripFence, hb, if_neg (by simp [h2])]

/-- The player invariant holds on a fresh mount. -/
lemma playerInv_init : playerInv initPlayer := by
  constructor
  · rfl
  · intro f h
    simp [initPlayer] at h

/-- Under the invariant, `cleanupAudioFile` empties the instance's disk. -/
lemma cleanupAudioFile_disk (s : PlayerState) (h : playerInv s) :
    (cleanupAudioFile s).disk = [] := by
  obtain ⟨hdisk, _⟩ := h
  cases href : s.audioUriRef with
  | none =>
      simp only [href] at hdisk
      simp [cleanupAudioFile, href, hdisk]
  | some f =>
      simp only [href] at hdisk
      simp [cleanupAudioFile, href, hdisk]

/-- Every player step preserves the resource invariant. -/
lemma playerInv_step (s : PlayerState) (e : PlayerEvent) (h : playerInv s) :
    playerInv (playerStep s e) := by
  have hclean := cleanupAudioFile_disk s h
  obtain ⟨hdisk, hctr⟩ := h
  cases e with
  | loadPayload writeOk =>
      cases writeOk with
      | true =>
          refine ⟨?_, ?_⟩
          · simp only [playerStep]
            simp [hclean]
          · intro f hf
            simp [playerStep, cleanupAudioFile] at hf ⊢
            omega
      | false =>
          refine ⟨?_, ?_⟩
          · simp only [playerStep]
            simp [hclean, show (cleanupAudioFile s).audioUriRef = none from rfl]
          · intro f hf
            simp [playerStep, cleanupAudioFile] at hf
  | pressPlayPause =>
      have hstep : (playerStep s .pressPlayPause).audioUriRef = s.audioUriRef ∧
          (playerStep s .pressPlayPause).disk = s.disk ∧
          (playerStep s .pressPlayPause).fileCounter = s.fileCounter := by
        by_cases hs : s.audioUriRef.isSome <;> simp [playerStep, hs]
      exact ⟨by rw [hstep.1, hstep.2.1]; exact hdisk,
        fun f hf => by rw [hstep.2.2]; exact hctr f (hstep.1 ▸ hf)⟩
  | unmount =>
      refine ⟨?_, ?_⟩
      · cases href : s.audioUriRef with
        | none =>
            simp only [href] at hdisk
            simp [playerStep, cleanupAudioFile, href, hdisk]
        | some f =>
            simp only [href] at hdisk
            simp [playerStep, cleanupAudioFile, href, hdisk]
      · intro f hf
        simp [playerStep, cleanupAudioFile] at hf

/-- The invariant holds after any event sequence from a fresh mount. -/
lemma playerInv_run (evs : List PlayerEvent) : playerInv (runPlayer evs) := by
  have hgen : ∀ (l : List PlayerEvent) (s : PlayerState), playerInv s →
      playerInv (l.foldl playerStep s) := by
    intro l
    induction l with
    | nil => intro s hs; exact hs
    | cons e tl ih => intro s hs; exact ih _ (playerInv_step s e hs)
  exact hgen evs initPlayer playerInv_init

/-- `initializeSession` always leaves a non-empty user id in memory,
whatever the storage outcomes, as long as the UUID generator never
returns the empty string. -/
lemma initializeSession_userId (env : StorageEnv) (gen : Nat → String) (c : Nat)
    (hgen : ∀ n, gen n ≠ "") :
    ∃ u, (initializeSession env gen c).1.userId = some u ∧ u ≠ "" := by
  unfold initializeSession
  rcases hss : env.initSetSession with e | a
  · exact ⟨gen (c + 2), by simp, hgen _⟩
  · rcases hgu : env.initGetUser with e | v
    · exact ⟨gen (c + 2), by simp, hgen _⟩
    · cases hv : jsFalsy v with
      | true =>
          rcases hsu : env.initSetUser with e | b
          · exact ⟨gen (c + 3), by simp [hv], hgen _⟩
          · exact ⟨gen (c + 1), by simp [hv], hgen _⟩
      | false =>
          match v, hv with
          | some s, hv =>
            refine ⟨s, by simp [hv], ?_⟩
            simpa [jsFalsy] using hv

/-! ## Claims -/

/-- Claim C1, counterexample: the voice request dispatched by
`speechToText` carries `user_id = "123"` and `session_id = "123"`, while
the Session Identity Manager, freshly initialized, holds the UUIDs
`uuid-1` / `uuid-0` — the request does not carry the manager's values. -/
theorem c1_counterexample :
    (speechToTextRequest "QQ" "hi-IN").user_id = "123" ∧
    (speechToTextRequest "QQ" "hi-IN").session_id = "123" ∧
    (initializeSession freshStorageEnv exGen 0).1.userId = some "uuid-1" ∧
    (initializeSession freshStorageEnv exGen 0).1.sessionId = some "uuid-0" ∧
    ("123" : String) ≠ "uuid-1" ∧ ("123" : String) ≠ "uuid-0" := by
  refine ⟨rfl, rfl, ?_, ?_, by decide, by decide⟩ <;> decide

/-- Claim C1 as amended: every dispatched voice turn carries the
hardcoded placeholder identifiers `user_id = "123"` and
`session_id = "123"`, independent of the Session Identity Manager. -/
theorem c1_voice_request_uses_hardcoded_ids :
    ∀ (s : ScreenState) (b : String),
      (handleAudioRecordedStart s b).dispatched = s.dispatched ++
        [.voiceInvoke
          { audio_data := b
            audio_encoding := "MP3"
            language_code := getSpeechRecognitionCode s.currentLanguage
            user_id := "123"
            session_id := "123" }] := by
  intro s b
  rfl

/-- Claim C2, counterexample: with language `en` selected, a text turn is
dispatched with the speech-recognition code `en-IN`, not the text-API
code `en`. -/
theorem c2_counterexample :
    (handleTextSendStart exReadyState).dispatched = [.textInvoke "hi" "en-IN"] ∧
    getTextApiCode "en" = "en" ∧ ("en-IN" : String) ≠ "en" := by
  refine ⟨by decide, by decide, by decide⟩

/-- Claim C2 as amended: both kinds of turns resolve the active language
selection's speech-recognition code — the voice turn as claimed, and the
text turn too (the text/translation-API code is not used). -/
theorem c2_turns_dispatch_speech_recognition_code :
    (∀ s : ScreenState, jsTrim s.textInput ≠ "" → s.isSending = false →
      (handleTextSendStart s).dispatched = s.dispatched ++
        [.textInvoke (jsTrim s.textInput)
          (getSpeechRecognitionCode s.currentLanguage)])
    ∧ ∀ (s : ScreenState) (b : String),
      (handleAudioRecordedStart s b).dispatched = s.dispatched ++
        [.voiceInvoke (speechToTextRequest b
          (getSpeechRecognitionCode s.currentLanguage))] := by
  constructor
  · intro s h1 h2
    unfold handleTextSendStart
    rw [if_neg (by simp [h1, h2])]
    simp [addMessage]
  · intro s b
    rfl

/-- Claim C2 witness: the theorem applied at the concrete ready state. -/
theorem c2_witness :
    (handleTextSendStart exReadyState).dispatched = exReadyState.dispatched ++
      [.textInvoke (jsTrim exReadyState.textInput)
        (getSpeechRecognitionCode exReadyState.currentLanguage)] ∧
    (handleAudioRecordedStart exReadyState "QQ").dispatched =
      exReadyState.dispatched ++ [.voiceInvoke (speechToTextRequest "QQ"
        (getSpeechRecognitionCode exReadyState.currentLanguage))] :=
  ⟨c2_turns_dispatch_speech_recognition_code.1 exReadyState (by decide) rfl,
   c2_turns_dispatch_speech_recognition_code.2 exReadyState "QQ"⟩

/-- Claim C3, counterexample: while a voice turn is outstanding
(`isProcessing`), a voice submit still dispatches an additional remote
call — the one-outstanding-call property fails. -/
theorem c3_counterexample : ¬ secondSubmitIsNoop := by
  intro h
  have h2 := (h exBusyState (Or.inr rfl)).2 "QQ"
  exact absurd h2 (by decide)

/-- Claim C3 as amended: only a second text submit while a text turn is
outstanding (`isSending`) is a no-op that dispatches nothing and queues
nothing; voice submits are not guarded at all, and a voice submit always
dispatches a call. -/
theorem c3_only_text_submit_serialized :
    (∀ s : ScreenState, s.isSending = true → handleTextSendStart s = s)
    ∧ ∀ (s : ScreenState) (b : String),
      (handleAudioRecordedStart s b).dispatched.length =
        s.dispatched.length + 1 := by
  constructor
  · intro s h
    unfold handleTextSendStart
    rw [if_pos (Or.inr (by simp [h]))]
  · intro s b
    simp [handleAudioRecordedStart]

/-- Claim C3 witness: the theorem applied at concrete states. -/
theorem c3_witness :
    handleTextSendStart exSendingState = exSendingState ∧
    (handleAudioRecordedStart exBusyState "QQ").dispatched.length =
      exBusyState.dispatched.length + 1 :=
  ⟨c3_only_text_submit_serialized.1 exSendingState rfl,
   c3_only_text_submit_serialized.2 exBusyState "QQ"⟩

/-- Claim C4, counterexample: a failed voice turn appends zero assistant
failure notices (the handler only raises an alert), not exactly one. -/
theorem c4_counterexample : ¬ everyFailedTurnAppendsOneNotice := by
  intro h
  have h2 := h.2 exReadyState "QQ" (.error ()) rfl
  exact absurd h2 (by decide)

/-- Claim C4 as amended: a failed text turn appends exactly one
assistant message carrying the generic localized failure notice, right
after the user's already-appended message, which it neither removes nor
alters — regardless of whether the failure was a rejected promise or a
`success:false` response; a failed voice turn appends no message at all
(its failure surfaces as an alert). -/
theorem c4_failed_turn_message_effects :
    (∀ (s : ScreenState) (outcome : Except Unit TextInvokeResponse),
      jsTrim s.textInput ≠ "" → s.isSending = false →
      textOutcomeFailed outcome = true →
      (textTurn s outcome).messages = s.messages ++
        [{ id := s.messageIdCounter + 1, role := .user,
           content := jsTrim s.textInput, isAudio := false, audioData := none },
         { id := s.messageIdCounter + 1 + 1, role := .assistant,
           content := voiceChatErrorNotice, isAudio := false, audioData := none }])
    ∧ ∀ (s : ScreenState) (b : String) (outcome : Except Unit SpeechToTextResponse),
      voiceOutcomeFailed outcome = true →
      (voiceTurn s b outcome).messages = s.messages := by
  constructor
  · intro s outcome h1 h2 h3
    unfold textTurn handleTextSendStart
    rw [if_neg (by simp [h1, h2])]
    cases outcome with
    | error e => simp [handleTextSendComplete, addMessage, jsFalsy]
    | ok r =>
        have hr : r.success = false := by simpa [textOutcomeFailed] using h3
        simp [handleTextSendComplete, hr, addMessage, jsFalsy]
  · intro s b outcome h
    cases outcome with
    | error e => rfl
    | ok r =>
        have hr : r.success = false := by simpa [voiceOutcomeFailed] using h
        simp [voiceTurn, handleAudioRecordedStart, handleAudioRecordedComplete, hr]

/-- Claim C4 witness: the theorem applied at the concrete ready state
with a rejected remote call. -/
theorem c4_witness :
    (textTurn exReadyState (.error ())).messages = exReadyState.messages ++
      [{ id := exReadyState.messageIdCounter + 1, role := .user,
         content := jsTrim exReadyState.textInput, isAudio := false,
         audioData := none },
       { id := exReadyState.messageIdCounter + 1 + 1, role := .assistant,
         content := voiceChatErrorNotice, isAudio := false, audioData := none }] ∧
    (voiceTurn exReadyState "QQ" (.error ())).messages = exReadyState.messages :=
  ⟨c4_failed_turn_message_effects.1 exReadyState (.error ()) (by decide) rfl rfl,
   c4_failed_turn_message_effects.2 exReadyState "QQ" (.error ()) rfl⟩

/-- Claim C5, counterexample: a stop whose base64 encoding fails leaves
the temp recording file on disk — the outer catch is reached before the
delete line runs. -/
theorem c5_counterexample : ¬ recEveryStopDeletes := by
  intro h
  exact h (startRecording initRec true).1 false "recording-0" (by decide) (by decide)

/-- Claim C5 as amended: a stop deletes its temp file exactly when the
base64 encode succeeds (emitting the payload); a stop whose encode fails
signals an error and leaves the file on disk, and a stop with no
retrievable URI signals an error and touches no file. -/
theorem c5_stop_file_deletion :
    (∀ (s : RecState) (u : String), s.uri = some u →
      ((stopRecording s true).1.disk = s.disk.erase u ∧
       (stopRecording s true).2 = [.payload (recBase64Of u)]) ∧
      ((stopRecording s false).1.disk = s.disk ∧
       (stopRecording s false).2 = [.recError "Failed to stop recording"]))
    ∧ ∀ (s : RecState) (ok : Bool), s.uri = none →
      (stopRecording s ok).1.disk = s.disk ∧
      (stopRecording s ok).2 = [.recError "Recording URI not found"] := by
  constructor
  · intro s u h
    refine ⟨⟨?_, ?_⟩, ?_, ?_⟩ <;> simp [stopRecording, h]
  · intro s ok h
    constructor <;> simp [stopRecording, h]

/-- Claim C5 witness: the theorem applied right after a started
recording, and at the fresh recorder with no URI. -/
theorem c5_witness :
    (((stopRecording (startRecording initRec true).1 true).1.disk =
        (startRecording initRec true).1.disk.erase "recording-0" ∧
      (stopRecording (startRecording initRec true).1 true).2 =
        [.payload (recBase64Of "recording-0")]) ∧
     ((stopRecording (startRecording initRec true).1 false).1.disk =
        (startRecording initRec true).1.disk ∧
      (stopRecording (startRecording initRec true).1 false).2 =
        [.recError "Failed to stop recording"])) ∧
    (stopRecording initRec true).1.disk = initRec.disk ∧
    (stopRecording initRec true).2 = [.recError "Recording URI not found"] :=
  ⟨c5_stop_file_deletion.1 (startRecording initRec true).1 "recording-0" (by decide),
   c5_stop_file_deletion.2 initRec true rfl⟩

/-- Claim C6, counterexample: unmounting the recorder component while a
recording is in progress also ends the recording (the cleanup effect
calls the recorder's stop directly), so the safety timer is not the only
mechanism besides the explicit stop. -/
theorem c6_counterexample : ¬ recOnlyPressOrTimerStops := by
  intro h
  rcases h (startRecording initRec true).1 .unmount (by decide) (by decide) with
    ⟨ok, hok⟩ | ⟨ok, hok⟩ <;> exact RecEvent.noConfusion hok

/-- Claim C6 as amended: every successful start schedules the safety
stop at exactly 60 000 ms; an explicit stop cancels the pending safety
timeout; and the explicit stop press, the safety timer, and the
component-unmount cleanup are the only mechanisms that end an
in-progress recording. -/
theorem c6_safety_timer_mechanisms :
    (∀ s : RecState, s.isRecording = false →
      (recStep s (.press true)).1.timerDelayMs = some 60000 ∧
      (recStep s (.press true)).1.isRecording = true)
    ∧ (∀ (s : RecState) (ok : Bool), s.isRecording = true →
      (recStep s (.press ok)).1.timerDelayMs = none)
    ∧ ∀ (s : RecState) (e : RecEvent), s.isRecording = true →
      (recStep s e).1.isRecording = false →
      e = .unmount ∨ (∃ ok, e = .press ok) ∨ (∃ ok, e = .timerFire ok) := by
  refine ⟨?_, ?_, ?_⟩
  · intro s h
    simp [recStep, h, startRecording]
  · intro s ok h
    cases hu : s.uri <;> cases ok <;> simp [recStep, h, stopRecording, hu]
  · intro s e h1 h2
    cases e with
    | press ok => exact Or.inr (Or.inl ⟨ok, rfl⟩)
    | timerFire ok => exact Or.inr (Or.inr ⟨ok, rfl⟩)
    | unmount => exact Or.inl rfl
    | otherUi =>
        exfalso
        simp [recStep] at h2
        rw [h1] at h2
        exact Bool.true_eq_false.mp h2

/-- Claim C6 witness: the theorem applied at the fresh recorder and at a
started recording. -/
theorem c6_witness :
    ((recStep initRec (.press true)).1.timerDelayMs = some 60000 ∧
     (recStep initRec (.press true)).1.isRecording = true) ∧
    (recStep (startRecording initRec true).1 (.press true)).1.timerDelayMs
      = none ∧
    (RecEvent.unmount = RecEvent.unmount ∨
      (∃ ok, RecEvent.unmount = RecEvent.press ok) ∨
      ∃ ok, RecEvent.unmount = RecEvent.timerFire ok) :=
  ⟨c6_safety_timer_mechanisms.1 initRec rfl,
   c6_safety_timer_mechanisms.2.1 (startRecording initRec true).1 true (by decide),
   c6_safety_timer_mechanisms.2.2 (startRecording initRec true).1 .unmount
     (by decide) (by decide)⟩

/-- Claim C7 (confirmed): after any event sequence a player instance's
disk holds exactly the file referenced by `audioUriRef` (so loading a
new payload has deleted the previous file), and an unmount — mid-playback
included — clears the reference and leaves no temp file; moreover a new
load's resulting disk no longer contains the previously referenced
file. -/
theorem c7_playback_single_file_invariant :
    ∀ evs : List PlayerEvent,
      playerInv (runPlayer evs) ∧
      (playerStep (runPlayer evs) .unmount).audioUriRef = none ∧
      (playerStep (runPlayer evs) .unmount).disk = [] ∧
      ∀ (f : Nat) (writeOk : Bool), (runPlayer evs).audioUriRef = some f →
        f ∉ (playerStep (runPlayer evs) (.loadPayload writeOk)).disk := by
  intro evs
  have hinv := playerInv_run evs
  have hinv2 : playerInv { runPlayer evs with isPlaying := false } :=
    ⟨hinv.1, hinv.2⟩
  refine ⟨hinv, rfl, cleanupAudioFile_disk _ hinv2, ?_⟩
  intro f writeOk href
  have hclean := cleanupAudioFile_disk _ hinv
  have hlt : f < (runPlayer evs).fileCounter := hinv.2 f href
  cases writeOk with
  | true =>
      simp only [playerStep]
      simp [hclean]
      have hfc : (cleanupAudioFile (runPlayer evs)).fileCounter =
          (runPlayer evs).fileCounter := rfl
      rw [hfc]
      omega
  | false =>
      simp only [playerStep]
      simp [hclean]

/-- Claim C7 witness: the theorem applied to a concrete
load-then-play trace: teardown mid-playback leaves no file, and
reloading removes the first decoded file. -/
theorem c7_witness :
    (playerStep (runPlayer [.loadPayload true, .pressPlayPause]) .unmount).disk
      = [] ∧
    0 ∉ (playerStep (runPlayer [.loadPayload true, .pressPlayPause])
      (.loadPayload true)).disk :=
  ⟨(c7_playback_single_file_invariant [.loadPayload true, .pressPlayPause]).2.2.1,
   (c7_playback_single_file_invariant [.loadPayload true, .pressPlayPause]).2.2.2
     0 true (by decide)⟩

/-- Claim C8, counterexample: with no cached user id, a rejected
`AsyncStorage.getItem` in `getUserId` itself propagates the error — the
function does throw on a persistence read failure. -/
theorem c8_counterexample :
    getUserId ⟨none, none⟩
      { freshStorageEnv with getUserDirect := .error () } exGen 0 =
      .error () := by
  rfl

/-- Claim C8 as amended: `getUserId` returns a non-empty identifier
without throwing whenever its own direct storage read resolves (with any
value or none); failures inside `initializeSession` — session write, user
read, user write — are all caught and degrade to freshly generated
in-memory values; only a rejection of the direct read in `getUserId`
itself propagates. -/
theorem c8_getUserId_failover :
    ∀ (mem : SessionMem) (v : Option String) (env : StorageEnv)
      (gen : Nat → String) (c : Nat),
      env.getUserDirect = .ok v → (∀ n, gen n ≠ "") →
      ∃ u mem2 c2, getUserId mem env gen c = .ok (u, mem2, c2) ∧ u ≠ "" := by
  intro mem v env gen c henv hgen
  unfold getUserId
  cases hm : jsFalsy mem.userId with
  | false =>
      match hmu : mem.userId, hm with
      | some s, hm =>
        refine ⟨s, mem, c, by simp [hm], ?_⟩
        simpa [jsFalsy] using hm
  | true =>
      rw [henv]
      cases hv : jsFalsy v with
      | true =>
          obtain ⟨u, hu, hne⟩ := initializeSession_userId env gen c hgen
          exact ⟨u, (initializeSession env gen c).1,
            (initializeSession env gen c).2, by simp [hm, hv, hu], hne⟩
      | false =>
          match v, hv with
          | some s, hv =>
            refine ⟨s, { mem with userId := some s }, c, by simp [hm, hv], ?_⟩
            simpa [jsFalsy] using hv

/-- Claim C8 witness: the theorem applied to the fresh manager whose
storage reads succeed with nothing persisted. -/
theorem c8_witness :
    ∃ u mem2 c2, getUserId ⟨none, none⟩ freshStorageEnv (fun _ => "u") 0 =
      .ok (u, mem2, c2) ∧ u ≠ "" :=
  c8_getUserId_failover ⟨none, none⟩ none freshStorageEnv (fun _ => "u") 0 rfl
    (fun _ => show "u" ≠ "" by decide)

/-- Claim C9 (confirmed): for any parse engine, a trimmed unfenced
payload and the same payload wrapped in a markdown json code fence parse
to the same result through `parseAgentResponse`, and any input whose
stripped text the engine rejects yields the non-throwing `none` result
instead of an exception. -/
theorem c9_parse_fence_tolerance :
    ∀ (α : Type) (jsonParse : List Char → Option α) (body : List Char),
      trimJs body = body → fenceJsonTag.isPrefixOf body = false →
      (parseAgentResponse jsonParse (fenceWrap body) =
        parseAgentResponse jsonParse body) ∧
      ∀ raw : List Char, jsonParse (stripFence raw) = none →
        parseAgentResponse jsonParse raw = none := by
  intro α jsonParse body h1 h2
  constructor
  · rw [parseAgentResponse, parseAgentResponse, stripFence_fenceWrap body h1,
      stripFence_clean body h1 h2]
  · intro raw h
    exact h

/-- Claim C9 witness: the theorem applied to the concrete two-character
JSON body at a concrete parse engine. -/
theorem c9_witness :
    parseAgentResponse (fun cs => some cs.length)
        (fenceWrap ("\x7b\x7d".toList)) =
      parseAgentResponse (fun cs => some cs.length) ("\x7b\x7d".toList) :=
  (c9_parse_fence_tolerance Nat (fun cs => some cs.length) ("\x7b\x7d".toList)
    (by decide) (by decide)).1

/-- Claim C10, counterexample: on a response with no fields, the string
field `user_id` is defaulted to `"123"`, not to the empty string as
claimed. -/
theorem c10_counterexample :
    (normalizeSpeechToTextResponse {} "hi-IN").user_id = "123" ∧
    (normalizeSpeechToTextResponse {} "hi-IN").user_id ≠ "" := by
  constructor <;> decide

/-- Claim C10 as amended: `speechToText` returns a fully-populated
response; missing fields are defaulted — `success` to `false`, the
payload string fields to `""`, `detected_language` to the requested
language code, numeric fields to `0`, `response_audio_encoding` to
`"MP3"`, `error` to `null`, and `user_id`/`session_id` to the
placeholder `"123"`. -/
theorem c10_normalization_defaults :
    ∀ (r : ApiVoiceResponse) (languageCode : String),
      (r.success = none →
        (normalizeSpeechToTextResponse r languageCode).success = false)
      ∧ (r.translated_text = none →
        (normalizeSpeechToTextResponse r languageCode).translated_text = "")
      ∧ (r.original_transcript = none →
        (normalizeSpeechToTextResponse r languageCode).original_transcript = "")
      ∧ (r.detected_language = none →
        (normalizeSpeechToTextResponse r languageCode).detected_language =
          languageCode)
      ∧ (r.transcription_confidence = none →
        (normalizeSpeechToTextResponse r languageCode).transcription_confidence
          = 0)
      ∧ (r.agent_response = none →
        (normalizeSpeechToTextResponse r languageCode).agent_response = "")
      ∧ (r.agent_response_translated = none →
        (normalizeSpeechToTextResponse r languageCode).agent_response_translated
          = "")
      ∧ (r.response_audio_data = none →
        (normalizeSpeechToTextResponse r languageCode).response_audio_data = "")
      ∧ (r.response_audio_encoding = none →
        (normalizeSpeechToTextResponse r languageCode).response_audio_encoding
          = "MP3")
      ∧ (r.response_audio_size_bytes = none →
        (normalizeSpeechToTextResponse r languageCode).response_audio_size_bytes
          = 0)
      ∧ (r.user_id = none →
        (normalizeSpeechToTextResponse r languageCode).user_id = "123")
      ∧ (r.session_id = none →
        (normalizeSpeechToTextResponse r languageCode).session_id = "123")
      ∧ (r.error = none →
        (normalizeSpeechToTextResponse r languageCode).error = none) := by
  intro r languageCode
  refine ⟨?_, ?_, ?_, ?_, ?_, ?_, ?_, ?_, ?_, ?_, ?_, ?_, ?_⟩ <;>
    (intro h;
     simp [normalizeSpeechToTextResponse, jsOrStr, jsOrBool, jsOrInt,
       jsOrNull, h])

/-- Claim C10 witness: the theorem applied at the empty response body. -/
theorem c10_witness :
    (normalizeSpeechToTextResponse {} "hi-IN").success = false ∧
    (normalizeSpeechToTextResponse {} "hi-IN").detected_language = "hi-IN" ∧
    (normalizeSpeechToTextResponse {} "hi-IN").response_audio_encoding = "MP3" ∧
    (normalizeSpeechToTextResponse {} "hi-IN").user_id = "123" ∧
    (normalizeSpeechToTextResponse {} "hi-IN").error = none :=
  ⟨(c10_normalization_defaults {} "hi-IN").1 rfl,
   (c10_normalization_defaults {} "hi-IN").2.2.2.1 rfl,
   (c10_normalization_defaults {} "hi-IN").2.2.2.2.2.2.2.2.1 rfl,
   (c10_normalization_defaults {} "hi-IN").2.2.2.2.2.2.2.2.2.2.1 rfl,
   (c10_normalization_defaults {} "hi-IN").2.2.2.2.2.2.2.2.2.2.2.2 rfl⟩

end KisanAI
